import Mathlib

/-!
Shallow embedding of the typed, schema-validated graph edge
(`src/src/lib/data/graph/Edge.cpp`) of the Sourcetrail repository.

Node kinds and edge kinds are C++ bit-flag enumerations; we model each
as an inductive type together with its numeric bit value, and mask tests
(`isType`) as `(bit & mask) > 0` on `Nat`, exactly as in the source.
`Node.h`, `Token.h` and the two token-component headers are not part of
the provided sources; the pieces of them this file needs are modelled
from the spec and marked as such in their doc comments.
-/

namespace Sourcetrail

/-- Modelled from the spec: the node kind vocabulary of `Node.h` (absent
from src/). Spec section 3 fixes the closed enumeration of 14 node kinds
and says they are bit flags; the concrete bit assignment is not
observable through `Edge.cpp`, only distinctness is, so bits 0..13 are
assigned in the spec's listing order. -/
inductive NodeType where
  | NODE_UNDEFINED
  | NODE_UNDEFINED_VARIABLE
  | NODE_UNDEFINED_FUNCTION
  | NODE_CLASS
  | NODE_STRUCT
  | NODE_UNDEFINED_TYPE
  | NODE_ENUM
  | NODE_TYPEDEF
  | NODE_NAMESPACE
  | NODE_GLOBAL_VARIABLE
  | NODE_FIELD
  | NODE_FUNCTION
  | NODE_METHOD
  | NODE_TEMPLATE_PARAMETER_TYPE
deriving DecidableEq, Fintype, Repr

/-- The numeric bit-flag value of a node kind (its C++ enumerator value). -/
def nodeTypeVal : NodeType → Nat
  | .NODE_UNDEFINED => 1
  | .NODE_UNDEFINED_VARIABLE => 2
  | .NODE_UNDEFINED_FUNCTION => 4
  | .NODE_CLASS => 8
  | .NODE_STRUCT => 16
  | .NODE_UNDEFINED_TYPE => 32
  | .NODE_ENUM => 64
  | .NODE_TYPEDEF => 128
  | .NODE_NAMESPACE => 256
  | .NODE_GLOBAL_VARIABLE => 512
  | .NODE_FIELD => 1024
  | .NODE_FUNCTION => 2048
  | .NODE_METHOD => 4096
  | .NODE_TEMPLATE_PARAMETER_TYPE => 8192

/-- `Node::NodeTypeMask` is a plain integer mask over node-kind bits. -/
abbrev NodeTypeMask := Nat

def NODE_UNDEFINED : NodeTypeMask := nodeTypeVal .NODE_UNDEFINED
def NODE_UNDEFINED_VARIABLE : NodeTypeMask := nodeTypeVal .NODE_UNDEFINED_VARIABLE
def NODE_UNDEFINED_FUNCTION : NodeTypeMask := nodeTypeVal .NODE_UNDEFINED_FUNCTION
def NODE_CLASS : NodeTypeMask := nodeTypeVal .NODE_CLASS
def NODE_STRUCT : NodeTypeMask := nodeTypeVal .NODE_STRUCT
def NODE_UNDEFINED_TYPE : NodeTypeMask := nodeTypeVal .NODE_UNDEFINED_TYPE
def NODE_ENUM : NodeTypeMask := nodeTypeVal .NODE_ENUM
def NODE_TYPEDEF : NodeTypeMask := nodeTypeVal .NODE_TYPEDEF
def NODE_NAMESPACE : NodeTypeMask := nodeTypeVal .NODE_NAMESPACE
def NODE_GLOBAL_VARIABLE : NodeTypeMask := nodeTypeVal .NODE_GLOBAL_VARIABLE
def NODE_FIELD : NodeTypeMask := nodeTypeVal .NODE_FIELD
def NODE_FUNCTION : NodeTypeMask := nodeTypeVal .NODE_FUNCTION
def NODE_METHOD : NodeTypeMask := nodeTypeVal .NODE_METHOD
def NODE_TEMPLATE_PARAMETER_TYPE : NodeTypeMask := nodeTypeVal .NODE_TEMPLATE_PARAMETER_TYPE

/-- Modelled from the spec: `Node::isType(mask)` (`Node.h`/`Node.cpp`
absent from src/). Spec section 4.1: returns whether the node's kind
intersects the given category mask; `Edge.cpp` line 52 shows the same
idiom for edges: `(m_type & mask) > 0`. -/
def isTypeKind (t : NodeType) (mask : NodeTypeMask) : Bool :=
  decide (nodeTypeVal t &&& mask > 0)

/-- The edge kind vocabulary: the closed set of 15 kinds of `Edge.h`
(bit flags, per `Edge::isType`); bits 0..14 in declaration order. -/
inductive EdgeType where
  | EDGE_MEMBER
  | EDGE_TYPE_OF
  | EDGE_RETURN_TYPE_OF
  | EDGE_PARAMETER_TYPE_OF
  | EDGE_TYPE_USAGE
  | EDGE_INHERITANCE
  | EDGE_OVERRIDE
  | EDGE_CALL
  | EDGE_USAGE
  | EDGE_TYPEDEF_OF
  | EDGE_TEMPLATE_PARAMETER_OF
  | EDGE_TEMPLATE_ARGUMENT_OF
  | EDGE_TEMPLATE_DEFAULT_ARGUMENT_OF
  | EDGE_TEMPLATE_SPECIALIZATION_OF
  | EDGE_AGGREGATION
deriving DecidableEq, Fintype, Repr

/-- The numeric bit-flag value of an edge kind (its C++ enumerator value). -/
def edgeTypeVal : EdgeType → Nat
  | .EDGE_MEMBER => 1
  | .EDGE_TYPE_OF => 2
  | .EDGE_RETURN_TYPE_OF => 4
  | .EDGE_PARAMETER_TYPE_OF => 8
  | .EDGE_TYPE_USAGE => 16
  | .EDGE_INHERITANCE => 32
  | .EDGE_OVERRIDE => 64
  | .EDGE_CALL => 128
  | .EDGE_USAGE => 256
  | .EDGE_TYPEDEF_OF => 512
  | .EDGE_TEMPLATE_PARAMETER_OF => 1024
  | .EDGE_TEMPLATE_ARGUMENT_OF => 2048
  | .EDGE_TEMPLATE_DEFAULT_ARGUMENT_OF => 4096
  | .EDGE_TEMPLATE_SPECIALIZATION_OF => 8192
  | .EDGE_AGGREGATION => 16384

/-- `Edge::checkType` (`Edge.cpp` lines 181-287) as a pure function of
the edge kind and the two endpoint node kinds: the member accesses
`m_type`, `m_from->isType`, `m_to->isType` become the three arguments.
The four local masks are the ones built at lines 183-186. Returns the
boolean verdict; the failure diagnostic is accounted for by the callers
(`Edge.construct` / `Edge.clone` below). -/
def checkTypeKinds (t : EdgeType) (fk tk : NodeType) : Bool :=
  let complexTypeMask : NodeTypeMask := NODE_UNDEFINED_TYPE ||| NODE_CLASS ||| NODE_STRUCT
  let typeMask : NodeTypeMask := NODE_UNDEFINED ||| NODE_ENUM ||| NODE_TYPEDEF ||| complexTypeMask
  let variableMask : NodeTypeMask :=
    NODE_UNDEFINED ||| NODE_UNDEFINED_VARIABLE ||| NODE_GLOBAL_VARIABLE ||| NODE_FIELD
  let functionMask : NodeTypeMask := NODE_UNDEFINED_FUNCTION ||| NODE_FUNCTION ||| NODE_METHOD
  match t with
  | .EDGE_MEMBER =>
    if !isTypeKind fk (typeMask ||| NODE_NAMESPACE) ||
        (!isTypeKind fk (NODE_UNDEFINED ||| NODE_NAMESPACE) && isTypeKind tk NODE_NAMESPACE) ||
        (isTypeKind fk NODE_ENUM && !isTypeKind tk NODE_FIELD) then
      false
    else
      true
  | .EDGE_TYPE_OF =>
    if !isTypeKind fk variableMask || !isTypeKind tk typeMask then false else true
  | .EDGE_RETURN_TYPE_OF =>
    if !isTypeKind fk functionMask || !isTypeKind tk typeMask then false else true
  | .EDGE_PARAMETER_TYPE_OF =>
    if !isTypeKind fk functionMask || !isTypeKind tk typeMask then false else true
  | .EDGE_TYPE_USAGE =>
    if !isTypeKind fk functionMask || !isTypeKind tk typeMask then false else true
  | .EDGE_INHERITANCE =>
    if !isTypeKind fk complexTypeMask || !isTypeKind tk complexTypeMask then false else true
  | .EDGE_OVERRIDE =>
    if !isTypeKind fk (NODE_UNDEFINED_FUNCTION ||| NODE_METHOD) ||
        !isTypeKind tk (NODE_UNDEFINED_FUNCTION ||| NODE_METHOD) then false else true
  | .EDGE_CALL =>
    if !isTypeKind fk (variableMask ||| functionMask) || !isTypeKind tk functionMask then
      false
    else
      true
  | .EDGE_USAGE =>
    if !isTypeKind fk functionMask || !isTypeKind tk variableMask then false else true
  | .EDGE_TYPEDEF_OF =>
    if !isTypeKind fk NODE_TYPEDEF || !isTypeKind tk typeMask then false else true
  | .EDGE_TEMPLATE_PARAMETER_OF =>
    if !isTypeKind fk NODE_TEMPLATE_PARAMETER_TYPE ||
        !isTypeKind tk (typeMask ||| functionMask) then false else true
  | .EDGE_TEMPLATE_ARGUMENT_OF =>
    if !isTypeKind fk typeMask || !isTypeKind tk typeMask then false else true
  | .EDGE_TEMPLATE_DEFAULT_ARGUMENT_OF =>
    if !isTypeKind fk typeMask || !isTypeKind tk typeMask then false else true
  | .EDGE_TEMPLATE_SPECIALIZATION_OF =>
    if !isTypeKind fk (typeMask ||| functionMask) ||
        !isTypeKind tk (typeMask ||| functionMask) then false else true
  | .EDGE_AGGREGATION =>
    if !isTypeKind fk (typeMask ||| variableMask ||| functionMask) ||
        !isTypeKind tk (typeMask ||| variableMask ||| functionMask) then false else true

/-! ### The schema table of spec section 4.2, written from the spec's words.
These definitions exist only to be compared with `checkTypeKinds` (a
refinement claim); they are NOT translated from the source. -/

/-- Spec section 3: `complexType = UndefinedType ∪ Class ∪ Struct`. -/
def specComplexType (k : NodeType) : Bool :=
  decide (k ∈ [NodeType.NODE_UNDEFINED_TYPE, NodeType.NODE_CLASS, NodeType.NODE_STRUCT])

/-- Spec section 3: `typeLike = Undefined ∪ Enum ∪ Typedef ∪ complexType`. -/
def specTypeLike (k : NodeType) : Bool :=
  decide (k ∈ [NodeType.NODE_UNDEFINED, NodeType.NODE_ENUM, NodeType.NODE_TYPEDEF]) ||
    specComplexType k

/-- Spec section 3: `variableLike = Undefined ∪ UndefinedVariable ∪ GlobalVariable ∪ Field`. -/
def specVariableLike (k : NodeType) : Bool :=
  decide (k ∈ [NodeType.NODE_UNDEFINED, NodeType.NODE_UNDEFINED_VARIABLE,
    NodeType.NODE_GLOBAL_VARIABLE, NodeType.NODE_FIELD])

/-- Spec section 3: `functionLike = UndefinedFunction ∪ Function ∪ Method`. -/
def specFunctionLike (k : NodeType) : Bool :=
  decide (k ∈ [NodeType.NODE_UNDEFINED_FUNCTION, NodeType.NODE_FUNCTION, NodeType.NODE_METHOD])

/-- The compatibility table of spec section 4.2, row by row, written
from the spec's words (including the claimed `to ∈ typeLike ∪ Namespace`
requirement of the Member row). -/
def specTable (t : EdgeType) (fk tk : NodeType) : Bool :=
  match t with
  | .EDGE_MEMBER =>
    (specTypeLike fk || fk = .NODE_NAMESPACE) &&
    (specTypeLike tk || tk = .NODE_NAMESPACE) &&
    !(tk = .NODE_NAMESPACE && !(fk = .NODE_UNDEFINED || fk = .NODE_NAMESPACE)) &&
    !(fk = .NODE_ENUM && tk ≠ .NODE_FIELD)
  | .EDGE_TYPE_OF => specVariableLike fk && specTypeLike tk
  | .EDGE_RETURN_TYPE_OF => specFunctionLike fk && specTypeLike tk
  | .EDGE_PARAMETER_TYPE_OF => specFunctionLike fk && specTypeLike tk
  | .EDGE_TYPE_USAGE => specFunctionLike fk && specTypeLike tk
  | .EDGE_INHERITANCE => specComplexType fk && specComplexType tk
  | .EDGE_OVERRIDE =>
    (fk = .NODE_UNDEFINED_FUNCTION || fk = .NODE_METHOD) &&
    (tk = .NODE_UNDEFINED_FUNCTION || tk = .NODE_METHOD)
  | .EDGE_CALL => (specVariableLike fk || specFunctionLike fk) && specFunctionLike tk
  | .EDGE_USAGE => specFunctionLike fk && specVariableLike tk
  | .EDGE_TYPEDEF_OF => fk = .NODE_TYPEDEF && specTypeLike tk
  | .EDGE_TEMPLATE_PARAMETER_OF =>
    fk = .NODE_TEMPLATE_PARAMETER_TYPE && (specTypeLike tk || specFunctionLike tk)
  | .EDGE_TEMPLATE_ARGUMENT_OF => specTypeLike fk && specTypeLike tk
  | .EDGE_TEMPLATE_DEFAULT_ARGUMENT_OF => specTypeLike fk && specTypeLike tk
  | .EDGE_TEMPLATE_SPECIALIZATION_OF =>
    (specTypeLike fk || specFunctionLike fk) && (specTypeLike tk || specFunctionLike tk)
  | .EDGE_AGGREGATION =>
    (specTypeLike fk || specVariableLike fk || specFunctionLike fk) &&
    (specTypeLike tk || specVariableLike tk || specFunctionLike tk)

/-- The table of spec section 4.2 with the Member row amended to what
the source enforces: the `to` endpoint of a Member edge is not required
to lie in `typeLike ∪ Namespace`; only the two extra constraints of the
row restrict it. Every other row is unchanged. -/
def specTableAmended (t : EdgeType) (fk tk : NodeType) : Bool :=
  match t with
  | .EDGE_MEMBER =>
    (specTypeLike fk || fk = .NODE_NAMESPACE) &&
    !(tk = .NODE_NAMESPACE && !(fk = .NODE_UNDEFINED || fk = .NODE_NAMESPACE)) &&
    !(fk = .NODE_ENUM && tk ≠ .NODE_FIELD)
  | _ => specTable t fk tk

/-! ### Nodes, token components and edges -/

/-- Modelled from the spec: the `Node` of `Node.h`/`Node.cpp` (absent
from src/), restricted to what `Edge.cpp` touches. `addr` models C++
object identity (the pointer value), distinct from the Token `id`;
`m_type` is the node's kind; `name`/`fullName` back `getName()` and
`getFullName()`; `incidentEdges` is the spec's incidence set of
section 4.1, held as a duplicate-free list of edge ids. -/
structure Node where
  addr : Nat
  id : Nat
  m_type : NodeType
  name : String
  fullName : String
  incidentEdges : List Nat
deriving DecidableEq, Repr

/-- Modelled from the spec: `Node::isType(mask)` on a node value. -/
def Node.isType (n : Node) (mask : NodeTypeMask) : Bool :=
  isTypeKind n.m_type mask

/-- Modelled from the spec: `Node::addEdge` (section 4.1) inserts the
edge into the node's incidence set. -/
def Node.addEdge (n : Node) (eid : Nat) : Node :=
  if eid ∈ n.incidentEdges then n
  else { n with incidentEdges := n.incidentEdges ++ [eid] }

/-- Modelled from the spec: `Node::removeEdge` (section 4.1) removes the
edge from the node's incidence set. -/
def Node.removeEdge (n : Node) (eid : Nat) : Node :=
  { n with incidentEdges := n.incidentEdges.filter (fun x => x ≠ eid) }

/-- Modelled from the spec: the visibility enumeration held by
`TokenComponentAccess` (header absent from src/); spec sections 2 and
4.3: "a small closed visibility enumeration", e.g. public/protected/private. -/
inductive AccessType where
  | ACCESS_PUBLIC
  | ACCESS_PROTECTED
  | ACCESS_PRIVATE
deriving DecidableEq, Repr

/-- Modelled from the spec: `TokenComponentAccess`, a plain holder of
one visibility value (section 4.3). -/
structure TokenComponentAccess where
  access : AccessType
deriving DecidableEq, Repr

/-- Modelled from the spec: `TokenComponentAccess::getAccessString`,
the display label of the stored visibility value. -/
def TokenComponentAccess.getAccessString (c : TokenComponentAccess) : String :=
  match c.access with
  | .ACCESS_PUBLIC => "public"
  | .ACCESS_PROTECTED => "protected"
  | .ACCESS_PRIVATE => "private"

/-- Modelled from the spec: `TokenComponentAggregation`, a plain holder
of one non-negative count (section 4.3). -/
structure TokenComponentAggregation where
  aggregationCount : Nat
deriving DecidableEq, Repr

/-- Modelled from the spec: `TokenComponentAggregation::getAggregationCount`. -/
def TokenComponentAggregation.getAggregationCount (c : TokenComponentAggregation) : Nat :=
  c.aggregationCount

/-- The `Edge` of `Edge.cpp`: Token id, kind `m_type`, the two endpoint
nodes `m_from`/`m_to` (the C++ members hold pointers; here the node
values as of registration time), and the Token's component slots — the
spec fixes the closed component set as at most one Access and at most
one Aggregation component, so `getComponent<T>` becomes a field read of
the corresponding `Option` slot. -/
structure Edge where
  id : Nat
  m_type : EdgeType
  m_from : Node
  m_to : Node
  accessComponent : Option TokenComponentAccess
  aggregationComponent : Option TokenComponentAggregation
deriving DecidableEq, Repr

/-- `Edge::getType` (`Edge.cpp` line 45). -/
def Edge.getType (e : Edge) : EdgeType := e.m_type

/-- `Edge::isType` (`Edge.cpp` line 50): `(m_type & mask) > 0`. -/
def Edge.isType (e : Edge) (mask : Nat) : Bool :=
  decide (edgeTypeVal e.m_type &&& mask > 0)

/-- `Edge::getFrom` (`Edge.cpp` line 55). -/
def Edge.getFrom (e : Edge) : Node := e.m_from

/-- `Edge::getTo` (`Edge.cpp` line 60). -/
def Edge.getTo (e : Edge) : Node := e.m_to

/-- One incidence-set mutation, recorded so the order of the two
registrations in the constructors (from first, then to) is observable. -/
inductive RegEvent where
  | addE (nodeAddr : Nat) (eid : Nat)
  | removeE (nodeAddr : Nat) (eid : Nat)
deriving DecidableEq, Repr

/-- Result of running a constructor of `Edge`: the new edge, the two
endpoint node states after registration, the registration events in
order, and the number of diagnostic reports emitted (the clone
constructor's identity diagnostic is tracked separately in
`CloneResult`). -/
structure ConstructResult where
  edge : Edge
  fromNode : Node
  toNode : Node
  events : List RegEvent
  diagnostics : Nat
deriving Repr

/-- `Edge::Edge(EdgeType, Node*, Node*)` (`Edge.cpp` lines 10-19):
stores kind and endpoints, registers with `m_from` then `m_to`, then
runs `checkType`, which emits one diagnostic report exactly when it
fails; its verdict has no other effect. -/
def Edge.construct (eid : Nat) (t : EdgeType) (nfrom nto : Node) : ConstructResult :=
  let nfromR := nfrom.addEdge eid
  let ntoR := nto.addEdge eid
  let e : Edge :=
    { id := eid, m_type := t, m_from := nfromR, m_to := ntoR,
      accessComponent := none, aggregationComponent := none }
  { edge := e
    fromNode := nfromR
    toNode := ntoR
    events := [RegEvent.addE nfrom.addr eid, RegEvent.addE nto.addr eid]
    diagnostics := if checkTypeKinds t nfrom.m_type nto.m_type then 0 else 1 }

/-- Result of the cloning constructor: as `ConstructResult`, with the
clone-precondition diagnostic counted apart from the schema one. -/
structure CloneResult where
  edge : Edge
  fromNode : Node
  toNode : Node
  events : List RegEvent
  cloneDiagnostics : Nat
  schemaDiagnostics : Nat
deriving Repr

/-- `Edge::Edge(const Edge&, Node*, Node*)` (`Edge.cpp` lines 21-37):
copies the Token part (id and components) and the kind of `other`,
registers with the new `m_from` then `m_to`, reports "Nodes are not
plain copies." when the new from node is the same object as the
original's, or the new to node is, or either id differs from the
original's, and finally runs `checkType`. Object identity of the C++
pointer comparison is the `addr` field. -/
def Edge.clone (other : Edge) (nfrom nto : Node) : CloneResult :=
  let nfromR := nfrom.addEdge other.id
  let ntoR := nto.addEdge other.id
  let e : Edge :=
    { id := other.id, m_type := other.m_type, m_from := nfromR, m_to := ntoR,
      accessComponent := other.accessComponent,
      aggregationComponent := other.aggregationComponent }
  { edge := e
    fromNode := nfromR
    toNode := ntoR
    events := [RegEvent.addE nfrom.addr other.id, RegEvent.addE nto.addr other.id]
    cloneDiagnostics :=
      if nfrom.addr = other.m_from.addr ∨ nto.addr = other.m_to.addr ∨
          nfrom.id ≠ other.m_from.id ∨ nto.id ≠ other.m_to.id then 1 else 0
    schemaDiagnostics := if checkTypeKinds other.m_type nfrom.m_type nto.m_type then 0 else 1 }

/-- Result of `Edge::~Edge`: the two endpoint node states after
unregistration, and the mutation events in order. -/
structure DestructResult where
  fromNode : Node
  toNode : Node
  events : List RegEvent
deriving Repr

/-- `Edge::~Edge` (`Edge.cpp` lines 39-43): unregisters from `m_from`
then `m_to`. -/
def Edge.destruct (e : Edge) : DestructResult :=
  { fromNode := e.m_from.removeEdge e.id
    toNode := e.m_to.removeEdge e.id
    events := [RegEvent.removeE e.m_from.addr e.id, RegEvent.removeE e.m_to.addr e.id] }

/-- `Edge::addComponentAggregation` (`Edge.cpp` lines 80-94): rejects
with one diagnostic if an Aggregation component is already present, or
if the kind is not `EDGE_AGGREGATION`; otherwise attaches. Returns the
edge state and the number of diagnostics emitted. -/
def Edge.addComponentAggregation (e : Edge) (c : TokenComponentAggregation) : Edge × Nat :=
  if e.aggregationComponent.isSome then
    (e, 1)
  else if e.m_type ≠ EdgeType.EDGE_AGGREGATION then
    (e, 1)
  else
    ({ e with aggregationComponent := some c }, 0)

/-- `Edge::addComponentAccess` (`Edge.cpp` lines 96-110): rejects with
one diagnostic if an Access component is already present, or if the kind
is neither `EDGE_MEMBER` nor `EDGE_INHERITANCE`; otherwise attaches. -/
def Edge.addComponentAccess (e : Edge) (c : TokenComponentAccess) : Edge × Nat :=
  if e.accessComponent.isSome then
    (e, 1)
  else if e.m_type ≠ EdgeType.EDGE_MEMBER ∧ e.m_type ≠ EdgeType.EDGE_INHERITANCE then
    (e, 1)
  else
    ({ e with accessComponent := some c }, 0)

/-- `Edge::getTypeString(EdgeType)` (`Edge.cpp` lines 112-148) at the
level of the enumeration's numeric values: the C++ switch falls through
to `return ""` for any value that is none of the 15 enumerators. -/
def getTypeStringVal : Nat → String
  | 1 => "child"
  | 2 => "type_use"
  | 4 => "return_type"
  | 8 => "parameter_type"
  | 16 => "type_usage"
  | 32 => "inheritance"
  | 64 => "override"
  | 128 => "call"
  | 256 => "usage"
  | 512 => "typedef"
  | 1024 => "template parameter"
  | 2048 => "template argument"
  | 4096 => "template default argument"
  | 8192 => "template specialization"
  | 16384 => "aggregation"
  | _ => ""

/-- `Edge::getTypeString(EdgeType)` on an in-range edge kind. -/
def Edge.getTypeStringOf (t : EdgeType) : String :=
  getTypeStringVal (edgeTypeVal t)

/-- `Edge::getTypeString()` (`Edge.cpp` lines 150-153): the zero-argument
overload applied to `m_type`. -/
def Edge.getTypeString (e : Edge) : String :=
  Edge.getTypeStringOf e.m_type

/-- `Edge::getName` (`Edge.cpp` lines 65-68):
`getTypeString() + ":" + getFrom()->getFullName() + "->" + getTo()->getFullName()`. -/
def Edge.getName (e : Edge) : String :=
  e.getTypeString ++ ":" ++ e.getFrom.fullName ++ "->" ++ e.getTo.fullName

/-- `Edge::getAsString` (`Edge.cpp` lines 155-173): the base rendering
`[id] <label>: "<fromName>" -> "<toName>"`, then the access label after a
space when an Access component is present, then the aggregation count
after a space when an Aggregation component is present. -/
def Edge.getAsString (e : Edge) : String :=
  let base := "[" ++ toString e.id ++ "] " ++ e.getTypeString ++ ": \"" ++
    e.m_from.name ++ "\" -> \"" ++ e.m_to.name ++ "\""
  let withAccess :=
    match e.accessComponent with
    | some a => base ++ " " ++ a.getAccessString
    | none => base
  match e.aggregationComponent with
  | some g => withAccess ++ " " ++ toString g.getAggregationCount
  | none => withAccess

/-! ### Theorems -/

/-- C1 (counterexample): the claim that `checkType` returns true iff the
triple satisfies the section 4.2 table fails at the concrete input
(Member, Enum, Field): the code accepts it, but the table's Member row
requires the `to` kind to lie in `typeLike ∪ Namespace` and `Field` does
not, so the row is unsatisfied (indeed that requirement contradicts the
row's own Enum-to-Field constraint). -/
theorem checkType_spec_table_mismatch :
    checkTypeKinds EdgeType.EDGE_MEMBER NodeType.NODE_ENUM NodeType.NODE_FIELD = true ∧
      ¬ (specTable EdgeType.EDGE_MEMBER NodeType.NODE_ENUM NodeType.NODE_FIELD = true) := by
  decide

/-- C1 (amended): for every edge kind and every pair of from/to node
kinds, `checkType` returns true iff the triple satisfies the section 4.2
table with the Member row amended: the from kind must lie in
`typeLike ∪ Namespace`, it is not the case that `to` is Namespace while
`from` is outside `Undefined ∪ Namespace`, and it is not the case that
`from` is Enum while `to` is not Field — but the `to` kind is not
required to lie in `typeLike ∪ Namespace`. All other rows are exactly as
in the table. -/
theorem checkType_matches_amended_table :
    ∀ (t : EdgeType) (fk tk : NodeType),
      checkTypeKinds t fk tk = specTableAmended t fk tk := by
  decide

/-- The fixed human-readable label of each edge kind, as listed in spec
section 4.2. -/
def edgeTypeLabel : EdgeType → String
  | .EDGE_MEMBER => "child"
  | .EDGE_TYPE_OF => "type_use"
  | .EDGE_RETURN_TYPE_OF => "return_type"
  | .EDGE_PARAMETER_TYPE_OF => "parameter_type"
  | .EDGE_TYPE_USAGE => "type_usage"
  | .EDGE_INHERITANCE => "inheritance"
  | .EDGE_OVERRIDE => "override"
  | .EDGE_CALL => "call"
  | .EDGE_USAGE => "usage"
  | .EDGE_TYPEDEF_OF => "typedef"
  | .EDGE_TEMPLATE_PARAMETER_OF => "template parameter"
  | .EDGE_TEMPLATE_ARGUMENT_OF => "template argument"
  | .EDGE_TEMPLATE_DEFAULT_ARGUMENT_OF => "template default argument"
  | .EDGE_TEMPLATE_SPECIALIZATION_OF => "template specialization"
  | .EDGE_AGGREGATION => "aggregation"

lemma getTypeStringOf_eq_label (t : EdgeType) : Edge.getTypeStringOf t = edgeTypeLabel t := by
  cases t <;> rfl

/-- C9: `getTypeString(type)` is total: on each of the 15 enumerated
edge kinds it returns that kind's fixed label, and on any numeric value
that is not one of the 15 enumerator values it returns the empty string
(the C++ switch falls through) rather than failing. -/
theorem getTypeString_total :
    (∀ t : EdgeType, getTypeStringVal (edgeTypeVal t) = edgeTypeLabel t) ∧
      (∀ v : Nat, (∀ t : EdgeType, edgeTypeVal t ≠ v) → getTypeStringVal v = "") := by
  constructor
  · intro t
    cases t <;> rfl
  · intro v h
    unfold getTypeStringVal
    split
    · exact absurd rfl (h EdgeType.EDGE_MEMBER)
    · exact absurd rfl (h EdgeType.EDGE_TYPE_OF)
    · exact absurd rfl (h EdgeType.EDGE_RETURN_TYPE_OF)
    · exact absurd rfl (h EdgeType.EDGE_PARAMETER_TYPE_OF)
    · exact absurd rfl (h EdgeType.EDGE_TYPE_USAGE)
    · exact absurd rfl (h EdgeType.EDGE_INHERITANCE)
    · exact absurd rfl (h EdgeType.EDGE_OVERRIDE)
    · exact absurd rfl (h EdgeType.EDGE_CALL)
    · exact absurd rfl (h EdgeType.EDGE_USAGE)
    · exact absurd rfl (h EdgeType.EDGE_TYPEDEF_OF)
    · exact absurd rfl (h EdgeType.EDGE_TEMPLATE_PARAMETER_OF)
    · exact absurd rfl (h EdgeType.EDGE_TEMPLATE_ARGUMENT_OF)
    · exact absurd rfl (h EdgeType.EDGE_TEMPLATE_DEFAULT_ARGUMENT_OF)
    · exact absurd rfl (h EdgeType.EDGE_TEMPLATE_SPECIALIZATION_OF)
    · exact absurd rfl (h EdgeType.EDGE_AGGREGATION)
    · rfl

/-- C9 witness: the theorem applied at the in-range kind `EDGE_CALL` and
at the out-of-range value 3 (the bitwise or of two enumerators, not
itself an enumerator). -/
theorem getTypeString_total_witness :
    getTypeStringVal (edgeTypeVal EdgeType.EDGE_CALL) = edgeTypeLabel EdgeType.EDGE_CALL ∧
      getTypeStringVal 3 = "" :=
  ⟨getTypeString_total.1 EdgeType.EDGE_CALL,
    getTypeString_total.2 3 (by decide)⟩

/-- C4: `addComponentAggregation` attaches the given component iff the
edge has no Aggregation component and its kind is `EDGE_AGGREGATION`;
otherwise it emits one diagnostic and leaves the edge unchanged. In
particular a second attach attempt on the same Aggregation edge is
rejected with the first attached component unaltered. -/
theorem addComponentAggregation_spec (e : Edge) (c : TokenComponentAggregation) :
    (e.aggregationComponent = none → e.m_type = EdgeType.EDGE_AGGREGATION →
      e.addComponentAggregation c = ({ e with aggregationComponent := some c }, 0)) ∧
    (e.aggregationComponent ≠ none ∨ e.m_type ≠ EdgeType.EDGE_AGGREGATION →
      e.addComponentAggregation c = (e, 1)) ∧
    (∀ c2 : TokenComponentAggregation,
      e.aggregationComponent = none → e.m_type = EdgeType.EDGE_AGGREGATION →
        (e.addComponentAggregation c).1.addComponentAggregation c2 =
            ((e.addComponentAggregation c).1, 1) ∧
          (e.addComponentAggregation c).1.aggregationComponent = some c) := by
  refine ⟨?_, ?_, ?_⟩
  · intro h1 h2
    simp [Edge.addComponentAggregation, h1, h2]
  · intro h
    simp only [Edge.addComponentAggregation]
    split_ifs with h1 h2
    · rfl
    · rfl
    · rcases h with h | h
      · exact absurd (Option.not_isSome_iff_eq_none.mp h1) h
      · exact absurd (not_not.mp h2) h
  · intro c2 h1 h2
    have hfst : (e.addComponentAggregation c).1 = { e with aggregationComponent := some c } := by
      simp [Edge.addComponentAggregation, h1, h2]
    rw [hfst]
    exact ⟨by simp [Edge.addComponentAggregation], rfl⟩

/-- C4 witness: the theorem applied to a concrete Aggregation edge and
components: the first attach succeeds, a second attach of a different
component is rejected and the first component is untouched. -/
theorem addComponentAggregation_spec_witness :
    (let n : Node :=
      { addr := 0, id := 0, m_type := NodeType.NODE_CLASS, name := "A", fullName := "A",
        incidentEdges := [] };
    let e : Edge :=
      { id := 1, m_type := EdgeType.EDGE_AGGREGATION, m_from := n, m_to := n,
        accessComponent := none, aggregationComponent := none };
    e.addComponentAggregation ⟨2⟩ = ({ e with aggregationComponent := some ⟨2⟩ }, 0) ∧
      (e.addComponentAggregation ⟨2⟩).1.addComponentAggregation ⟨5⟩ =
          ((e.addComponentAggregation ⟨2⟩).1, 1) ∧
        (e.addComponentAggregation ⟨2⟩).1.aggregationComponent = some ⟨2⟩) := by
  refine ⟨?_, ?_⟩
  · exact (addComponentAggregation_spec _ ⟨2⟩).1 rfl rfl
  · exact (addComponentAggregation_spec _ ⟨2⟩).2.2 ⟨5⟩ rfl rfl

/-- C5: `addComponentAccess` attaches the given component iff the edge
has no Access component and its kind is `EDGE_MEMBER` or
`EDGE_INHERITANCE`; otherwise it emits one diagnostic and leaves the
edge unchanged. In particular attaching to a Call edge is always
rejected. -/
theorem addComponentAccess_spec (e : Edge) (c : TokenComponentAccess) :
    (e.accessComponent = none →
      e.m_type = EdgeType.EDGE_MEMBER ∨ e.m_type = EdgeType.EDGE_INHERITANCE →
        e.addComponentAccess c = ({ e with accessComponent := some c }, 0)) ∧
    (e.accessComponent ≠ none ∨
        (e.m_type ≠ EdgeType.EDGE_MEMBER ∧ e.m_type ≠ EdgeType.EDGE_INHERITANCE) →
      e.addComponentAccess c = (e, 1)) ∧
    (e.m_type = EdgeType.EDGE_CALL → e.addComponentAccess c = (e, 1)) := by
  refine ⟨?_, ?_, ?_⟩
  · intro h1 h2
    have h2' : ¬ (e.m_type ≠ EdgeType.EDGE_MEMBER ∧ e.m_type ≠ EdgeType.EDGE_INHERITANCE) := by
      rcases h2 with h | h <;> simp [h]
    simp [Edge.addComponentAccess, h1, h2']
  · intro h
    simp only [Edge.addComponentAccess]
    split_ifs with h1 h2
    · rfl
    · rfl
    · rcases h with h | h
      · exact absurd (Option.not_isSome_iff_eq_none.mp h1) h
      · exact absurd h h2
  · intro h
    simp only [Edge.addComponentAccess]
    split_ifs with h1 h2
    · rfl
    · rfl
    · rw [h] at h2
      simp at h2

/-- C5 witness: the theorem applied to concrete edges: attaching to a
Call edge is rejected, attaching to a Member edge with no Access
component succeeds. -/
theorem addComponentAccess_spec_witness :
    (let n : Node :=
      { addr := 0, id := 0, m_type := NodeType.NODE_CLASS, name := "A", fullName := "A",
        incidentEdges := [] };
    let ecall : Edge :=
      { id := 1, m_type := EdgeType.EDGE_CALL, m_from := n, m_to := n,
        accessComponent := none, aggregationComponent := none };
    let emember : Edge :=
      { id := 2, m_type := EdgeType.EDGE_MEMBER, m_from := n, m_to := n,
        accessComponent := none, aggregationComponent := none };
    ecall.addComponentAccess ⟨AccessType.ACCESS_PUBLIC⟩ = (ecall, 1) ∧
      emember.addComponentAccess ⟨AccessType.ACCESS_PUBLIC⟩ =
        ({ emember with accessComponent := some ⟨AccessType.ACCESS_PUBLIC⟩ }, 0)) := by
  refine ⟨?_, ?_⟩
  · exact (addComponentAccess_spec _ ⟨AccessType.ACCESS_PUBLIC⟩).2.2 rfl
  · exact (addComponentAccess_spec _ ⟨AccessType.ACCESS_PUBLIC⟩).1 rfl (Or.inl rfl)

/-- A component-attachment call on an edge: the two mutating operations
of the Edge class besides construction and destruction. -/
inductive ComponentOp where
  | accessOp (c : TokenComponentAccess)
  | aggregationOp (c : TokenComponentAggregation)
deriving DecidableEq, Repr

/-- Run a sequence of component-attachment calls on an edge (rejected
calls leave it unchanged, as in the source). -/
def Edge.applyOps (e : Edge) : List ComponentOp → Edge
  | [] => e
  | .accessOp c :: rest => Edge.applyOps (e.addComponentAccess c).1 rest
  | .aggregationOp c :: rest => Edge.applyOps (e.addComponentAggregation c).1 rest

/-- Each attached component kind certifies the edge kind that allowed
its attachment. -/
def componentInvariant (e : Edge) : Prop :=
  (e.accessComponent.isSome →
    e.m_type = EdgeType.EDGE_MEMBER ∨ e.m_type = EdgeType.EDGE_INHERITANCE) ∧
  (e.aggregationComponent.isSome → e.m_type = EdgeType.EDGE_AGGREGATION)

lemma componentInvariant_addComponentAccess (e : Edge) (c : TokenComponentAccess)
    (h : componentInvariant e) : componentInvariant (e.addComponentAccess c).1 := by
  simp only [Edge.addComponentAccess]
  split_ifs with h1 h2
  · exact h
  · exact h
  · rcases not_and_or.mp h2 with h3 | h3
    · exact ⟨fun _ => Or.inl (not_not.mp h3), h.2⟩
    · exact ⟨fun _ => Or.inr (not_not.mp h3), h.2⟩

lemma componentInvariant_addComponentAggregation (e : Edge) (c : TokenComponentAggregation)
    (h : componentInvariant e) : componentInvariant (e.addComponentAggregation c).1 := by
  simp only [Edge.addComponentAggregation]
  split_ifs with h1 h2
  · exact h
  · exact h
  · exact ⟨h.1, fun _ => not_not.mp h2⟩

lemma componentInvariant_applyOps (e : Edge) (h : componentInvariant e)
    (ops : List ComponentOp) : componentInvariant (e.applyOps ops) := by
  induction ops generalizing e with
  | nil => exact h
  | cons op rest ih =>
    cases op with
    | accessOp c =>
      exact ih _ (componentInvariant_addComponentAccess e c h)
    | aggregationOp c =>
      exact ih _ (componentInvariant_addComponentAggregation e c h)

/-- C10: an edge constructed by `Edge::Edge` and mutated only through
`addComponentAccess` / `addComponentAggregation` never carries both an
Access and an Aggregation component at once: the former requires kind
Member or Inheritance, the latter kind Aggregation, and the kind is
fixed at construction. -/
theorem components_mutually_exclusive (eid : Nat) (t : EdgeType) (nfrom nto : Node)
    (ops : List ComponentOp) :
    ¬ ((((Edge.construct eid t nfrom nto).edge.applyOps ops).accessComponent.isSome = true) ∧
      (((Edge.construct eid t nfrom nto).edge.applyOps ops).aggregationComponent.isSome = true)) := by
  rintro ⟨ha, hg⟩
  have h0 : componentInvariant (Edge.construct eid t nfrom nto).edge := by
    constructor
    · intro h
      simp [Edge.construct] at h
    · intro h
      simp [Edge.construct] at h
  have h := componentInvariant_applyOps _ h0 ops
  have h2 := h.2 hg
  rcases h.1 ha with h1 | h1 <;> rw [h1] at h2 <;> cases h2

/-- C10 witness: the theorem applied at a concrete Member edge and a
concrete operation sequence (an Access attach followed by an Aggregation
attach attempt). -/
theorem components_mutually_exclusive_witness :
    ¬ ((((Edge.construct 1 EdgeType.EDGE_MEMBER
            { addr := 0, id := 0, m_type := NodeType.NODE_CLASS, name := "A", fullName := "A",
              incidentEdges := [] }
            { addr := 1, id := 2, m_type := NodeType.NODE_FIELD, name := "b",
              fullName := "A::b", incidentEdges := [] }).edge.applyOps
          [ComponentOp.accessOp ⟨AccessType.ACCESS_PUBLIC⟩,
            ComponentOp.aggregationOp ⟨3⟩]).accessComponent.isSome = true) ∧
      ((((Edge.construct 1 EdgeType.EDGE_MEMBER
            { addr := 0, id := 0, m_type := NodeType.NODE_CLASS, name := "A", fullName := "A",
              incidentEdges := [] }
            { addr := 1, id := 2, m_type := NodeType.NODE_FIELD, name := "b",
              fullName := "A::b", incidentEdges := [] }).edge.applyOps
          [ComponentOp.accessOp ⟨AccessType.ACCESS_PUBLIC⟩,
            ComponentOp.aggregationOp ⟨3⟩])).aggregationComponent.isSome = true)) :=
  components_mutually_exclusive 1 EdgeType.EDGE_MEMBER _ _ _

@[simp] lemma Node.addEdge_addr (n : Node) (eid : Nat) : (n.addEdge eid).addr = n.addr := by
  simp only [Node.addEdge]
  split_ifs <;> rfl

@[simp] lemma Node.addEdge_id (n : Node) (eid : Nat) : (n.addEdge eid).id = n.id := by
  simp only [Node.addEdge]
  split_ifs <;> rfl

@[simp] lemma Node.addEdge_m_type (n : Node) (eid : Nat) :
    (n.addEdge eid).m_type = n.m_type := by
  simp only [Node.addEdge]
  split_ifs <;> rfl

@[simp] lemma Node.addEdge_name (n : Node) (eid : Nat) : (n.addEdge eid).name = n.name := by
  simp only [Node.addEdge]
  split_ifs <;> rfl

@[simp] lemma Node.addEdge_fullName (n : Node) (eid : Nat) :
    (n.addEdge eid).fullName = n.fullName := by
  simp only [Node.addEdge]
  split_ifs <;> rfl

lemma Node.mem_addEdge (n : Node) (eid : Nat) : eid ∈ (n.addEdge eid).incidentEdges := by
  simp only [Node.addEdge]
  split_ifs with h
  · exact h
  · simp

lemma Node.count_addEdge (n : Node) (eid : Nat) (h : eid ∉ n.incidentEdges) :
    ((n.addEdge eid).incidentEdges).count eid = 1 := by
  simp only [Node.addEdge, if_neg h]
  rw [List.count_append]
  simp [List.count_eq_zero.mpr h]

lemma Node.not_mem_removeEdge (n : Node) (eid : Nat) :
    eid ∉ (n.removeEdge eid).incidentEdges := by
  simp [Node.removeEdge]

/-- C2: constructing `Edge(kind, from, to)` registers the edge with the
from node first and then with the to node (the event trace), creates the
edge with the given kind, and does so whether or not the compatibility
check passes; exactly one diagnostic is emitted when the check fails and
none when it passes, and in the failing case the edge is still created
and registered on both endpoints. -/
theorem edge_construct_spec (eid : Nat) (t : EdgeType) (nfrom nto : Node) :
    (Edge.construct eid t nfrom nto).events =
        [RegEvent.addE nfrom.addr eid, RegEvent.addE nto.addr eid] ∧
      (Edge.construct eid t nfrom nto).edge.id = eid ∧
      (Edge.construct eid t nfrom nto).edge.m_type = t ∧
      eid ∈ (Edge.construct eid t nfrom nto).fromNode.incidentEdges ∧
      eid ∈ (Edge.construct eid t nfrom nto).toNode.incidentEdges ∧
      (checkTypeKinds t nfrom.m_type nto.m_type = false →
        (Edge.construct eid t nfrom nto).diagnostics = 1) ∧
      (checkTypeKinds t nfrom.m_type nto.m_type = true →
        (Edge.construct eid t nfrom nto).diagnostics = 0) := by
  refine ⟨rfl, rfl, rfl, Node.mem_addEdge nfrom eid, Node.mem_addEdge nto eid, ?_, ?_⟩ <;>
    intro h <;> simp [Edge.construct, h]

/-- C2 witness: the theorem applied at a schema-violating concrete input
(a Member edge from a Field node — `checkType` rejects it): the event
trace is from-then-to, the edge exists, both endpoints hold it, and
exactly one diagnostic was emitted. -/
theorem edge_construct_spec_witness :
    (Edge.construct 9 EdgeType.EDGE_MEMBER
          { addr := 0, id := 1, m_type := NodeType.NODE_FIELD, name := "f", fullName := "f",
            incidentEdges := [] }
          { addr := 1, id := 2, m_type := NodeType.NODE_CLASS, name := "C", fullName := "C",
            incidentEdges := [] }).events = [RegEvent.addE 0 9, RegEvent.addE 1 9] ∧
      (Edge.construct 9 EdgeType.EDGE_MEMBER
          { addr := 0, id := 1, m_type := NodeType.NODE_FIELD, name := "f", fullName := "f",
            incidentEdges := [] }
          { addr := 1, id := 2, m_type := NodeType.NODE_CLASS, name := "C", fullName := "C",
            incidentEdges := [] }).diagnostics = 1 ∧
      9 ∈ (Edge.construct 9 EdgeType.EDGE_MEMBER
          { addr := 0, id := 1, m_type := NodeType.NODE_FIELD, name := "f", fullName := "f",
            incidentEdges := [] }
          { addr := 1, id := 2, m_type := NodeType.NODE_CLASS, name := "C", fullName := "C",
            incidentEdges := [] }).fromNode.incidentEdges := by
  have h := edge_construct_spec 9 EdgeType.EDGE_MEMBER
    { addr := 0, id := 1, m_type := NodeType.NODE_FIELD, name := "f", fullName := "f",
      incidentEdges := [] }
    { addr := 1, id := 2, m_type := NodeType.NODE_CLASS, name := "C", fullName := "C",
      incidentEdges := [] }
  exact ⟨h.1, h.2.2.2.2.2.1 (by decide), h.2.2.2.1⟩

/-- C3: after construction each endpoint's incidence set contains the
new edge exactly once (given the edge is new to both), after destruction
neither contains it, and the only other mutating operations of the Edge
class — the two component attachments — leave both endpoint node states
of any edge unchanged. -/
theorem edge_incidence_invariant (eid : Nat) (t : EdgeType) (nfrom nto : Node)
    (hf : eid ∉ nfrom.incidentEdges) (ht : eid ∉ nto.incidentEdges) :
    ((Edge.construct eid t nfrom nto).fromNode.incidentEdges.count eid = 1 ∧
        (Edge.construct eid t nfrom nto).toNode.incidentEdges.count eid = 1) ∧
      (eid ∉ ((Edge.construct eid t nfrom nto).edge.destruct).fromNode.incidentEdges ∧
        eid ∉ ((Edge.construct eid t nfrom nto).edge.destruct).toNode.incidentEdges) ∧
      (∀ (e : Edge) (c : TokenComponentAccess),
        (e.addComponentAccess c).1.m_from = e.m_from ∧
          (e.addComponentAccess c).1.m_to = e.m_to) ∧
      (∀ (e : Edge) (c : TokenComponentAggregation),
        (e.addComponentAggregation c).1.m_from = e.m_from ∧
          (e.addComponentAggregation c).1.m_to = e.m_to) := by
  refine ⟨⟨Node.count_addEdge nfrom eid hf, Node.count_addEdge nto eid ht⟩,
    ⟨Node.not_mem_removeEdge _ eid, Node.not_mem_removeEdge _ eid⟩, ?_, ?_⟩
  · intro e c
    simp only [Edge.addComponentAccess]
    split_ifs <;> exact ⟨rfl, rfl⟩
  · intro e c
    simp only [Edge.addComponentAggregation]
    split_ifs <;> exact ⟨rfl, rfl⟩

/-- C3 witness: the theorem applied at a concrete Inheritance edge
between two class nodes with empty incidence sets. -/
theorem edge_incidence_invariant_witness :
    ((Edge.construct 4 EdgeType.EDGE_INHERITANCE
          { addr := 0, id := 1, m_type := NodeType.NODE_CLASS, name := "D", fullName := "D",
            incidentEdges := [] }
          { addr := 1, id := 2, m_type := NodeType.NODE_CLASS, name := "B", fullName := "B",
            incidentEdges := [] }).fromNode.incidentEdges.count 4 = 1 ∧
        (Edge.construct 4 EdgeType.EDGE_INHERITANCE
          { addr := 0, id := 1, m_type := NodeType.NODE_CLASS, name := "D", fullName := "D",
            incidentEdges := [] }
          { addr := 1, id := 2, m_type := NodeType.NODE_CLASS, name := "B", fullName := "B",
            incidentEdges := [] }).toNode.incidentEdges.count 4 = 1) ∧
      (4 ∉ ((Edge.construct 4 EdgeType.EDGE_INHERITANCE
          { addr := 0, id := 1, m_type := NodeType.NODE_CLASS, name := "D", fullName := "D",
            incidentEdges := [] }
          { addr := 1, id := 2, m_type := NodeType.NODE_CLASS, name := "B", fullName := "B",
            incidentEdges := [] }).edge.destruct).fromNode.incidentEdges ∧
        4 ∉ ((Edge.construct 4 EdgeType.EDGE_INHERITANCE
          { addr := 0, id := 1, m_type := NodeType.NODE_CLASS, name := "D", fullName := "D",
            incidentEdges := [] }
          { addr := 1, id := 2, m_type := NodeType.NODE_CLASS, name := "B", fullName := "B",
            incidentEdges := [] }).edge.destruct).toNode.incidentEdges) :=
  ⟨(edge_incidence_invariant 4 EdgeType.EDGE_INHERITANCE _ _ (by decide) (by decide)).1,
    (edge_incidence_invariant 4 EdgeType.EDGE_INHERITANCE _ _ (by decide) (by decide)).2.1⟩

/-- C6: the cloning constructor copies the source edge's kind, registers
the clone on the two replacement nodes (from first, then to), and emits
the clone-precondition diagnostic exactly when the new from node is the
same object as the original's, or the new to node is, or either carries
an id different from the original's; the clone is created and registered
either way. -/
theorem edge_clone_spec (other : Edge) (nfrom nto : Node) :
    (Edge.clone other nfrom nto).edge.m_type = other.m_type ∧
      (Edge.clone other nfrom nto).events =
        [RegEvent.addE nfrom.addr other.id, RegEvent.addE nto.addr other.id] ∧
      other.id ∈ (Edge.clone other nfrom nto).fromNode.incidentEdges ∧
      other.id ∈ (Edge.clone other nfrom nto).toNode.incidentEdges ∧
      ((Edge.clone other nfrom nto).cloneDiagnostics = 1 ↔
        (nfrom.addr = other.m_from.addr ∨ nto.addr = other.m_to.addr ∨
          nfrom.id ≠ other.m_from.id ∨ nto.id ≠ other.m_to.id)) ∧
      ((Edge.clone other nfrom nto).cloneDiagnostics = 0 ↔
        ¬ (nfrom.addr = other.m_from.addr ∨ nto.addr = other.m_to.addr ∨
          nfrom.id ≠ other.m_from.id ∨ nto.id ≠ other.m_to.id)) := by
  refine ⟨rfl, rfl, Node.mem_addEdge nfrom other.id, Node.mem_addEdge nto other.id, ?_, ?_⟩ <;>
    · simp only [Edge.clone]
      split_ifs with h <;> simp [h]

/-- C6 witness: the theorem applied to a concrete source edge and two
replacement nodes that are distinct objects carrying the originals' ids:
the kind is copied, both replacement nodes hold the clone, and no
clone-precondition diagnostic is emitted. -/
theorem edge_clone_spec_witness :
    (Edge.clone
          { id := 3, m_type := EdgeType.EDGE_CALL,
            m_from := { addr := 0, id := 1, m_type := NodeType.NODE_FUNCTION,
                        name := "f", fullName := "f", incidentEdges := [3] },
            m_to := { addr := 1, id := 2, m_type := NodeType.NODE_FUNCTION,
                      name := "g", fullName := "g", incidentEdges := [3] },
            accessComponent := none, aggregationComponent := none }
          { addr := 10, id := 1, m_type := NodeType.NODE_FUNCTION,
            name := "f", fullName := "f", incidentEdges := [] }
          { addr := 11, id := 2, m_type := NodeType.NODE_FUNCTION,
            name := "g", fullName := "g", incidentEdges := [] }).edge.m_type =
        EdgeType.EDGE_CALL ∧
      3 ∈ (Edge.clone
          { id := 3, m_type := EdgeType.EDGE_CALL,
            m_from := { addr := 0, id := 1, m_type := NodeType.NODE_FUNCTION,
                        name := "f", fullName := "f", incidentEdges := [3] },
            m_to := { addr := 1, id := 2, m_type := NodeType.NODE_FUNCTION,
                      name := "g", fullName := "g", incidentEdges := [3] },
            accessComponent := none, aggregationComponent := none }
          { addr := 10, id := 1, m_type := NodeType.NODE_FUNCTION,
            name := "f", fullName := "f", incidentEdges := [] }
          { addr := 11, id := 2, m_type := NodeType.NODE_FUNCTION,
            name := "g", fullName := "g", incidentEdges := [] }).fromNode.incidentEdges ∧
      (Edge.clone
          { id := 3, m_type := EdgeType.EDGE_CALL,
            m_from := { addr := 0, id := 1, m_type := NodeType.NODE_FUNCTION,
                        name := "f", fullName := "f", incidentEdges := [3] },
            m_to := { addr := 1, id := 2, m_type := NodeType.NODE_FUNCTION,
                      name := "g", fullName := "g", incidentEdges := [3] },
            accessComponent := none, aggregationComponent := none }
          { addr := 10, id := 1, m_type := NodeType.NODE_FUNCTION,
            name := "f", fullName := "f", incidentEdges := [] }
          { addr := 11, id := 2, m_type := NodeType.NODE_FUNCTION,
            name := "g", fullName := "g", incidentEdges := [] }).cloneDiagnostics = 0 := by
  have h := edge_clone_spec
    { id := 3, m_type := EdgeType.EDGE_CALL,
      m_from := { addr := 0, id := 1, m_type := NodeType.NODE_FUNCTION,
                  name := "f", fullName := "f", incidentEdges := [3] },
      m_to := { addr := 1, id := 2, m_type := NodeType.NODE_FUNCTION,
                name := "g", fullName := "g", incidentEdges := [3] },
      accessComponent := none, aggregationComponent := none }
    { addr := 10, id := 1, m_type := NodeType.NODE_FUNCTION,
      name := "f", fullName := "f", incidentEdges := [] }
    { addr := 11, id := 2, m_type := NodeType.NODE_FUNCTION,
      name := "g", fullName := "g", incidentEdges := [] }
  exact ⟨h.1, h.2.2.1, h.2.2.2.2.2.mpr (by decide)⟩

/-- C8: `getName` returns the edge kind's human-readable label, then
`:`, then the from node's full qualified name, then `->`, then the to
node's full qualified name. -/
theorem edge_getName_spec (eid : Nat) (t : EdgeType) (nfrom nto : Node) :
    (Edge.construct eid t nfrom nto).edge.getName =
      edgeTypeLabel t ++ ":" ++ nfrom.fullName ++ "->" ++ nto.fullName := by
  simp [Edge.construct, Edge.getName, Edge.getTypeString, getTypeStringOf_eq_label,
    Edge.getFrom, Edge.getTo]

/-- C8 witness: the theorem applied to a concrete Call edge between
functions with qualified names `N::f` and `N::g`. -/
theorem edge_getName_spec_witness :
    (Edge.construct 6 EdgeType.EDGE_CALL
          { addr := 0, id := 1, m_type := NodeType.NODE_FUNCTION, name := "f",
            fullName := "N::f", incidentEdges := [] }
          { addr := 1, id := 2, m_type := NodeType.NODE_FUNCTION, name := "g",
            fullName := "N::g", incidentEdges := [] }).edge.getName = "call:N::f->N::g" :=
  (edge_getName_spec 6 EdgeType.EDGE_CALL
    { addr := 0, id := 1, m_type := NodeType.NODE_FUNCTION, name := "f", fullName := "N::f",
      incidentEdges := [] }
    { addr := 1, id := 2, m_type := NodeType.NODE_FUNCTION, name := "g", fullName := "N::g",
      incidentEdges := [] }).trans (by decide)

/-- C7: for every edge, `getAsString` renders
`[<id>] <label>: "<fromName>" -> "<toName>"` from the edge's id, kind
label and endpoint names, followed by a space and the access label
whenever an Access component is attached (any access value), and
followed by a space and the aggregation count whenever an Aggregation
component is attached (any count); for a Member edge between nodes
named `A` and `A::b` carrying a public Access component this is
`[<id>] child: "A" -> "A::b" public` for every id. -/
theorem edge_getAsString_spec :
    (∀ e : Edge, e.accessComponent = none → e.aggregationComponent = none →
      e.getAsString =
        "[" ++ toString e.id ++ "] " ++ edgeTypeLabel e.m_type ++ ": \"" ++
          e.m_from.name ++ "\" -> \"" ++ e.m_to.name ++ "\"") ∧
      (∀ (e : Edge) (a : TokenComponentAccess),
        e.accessComponent = some a → e.aggregationComponent = none →
          e.getAsString =
            "[" ++ toString e.id ++ "] " ++ edgeTypeLabel e.m_type ++ ": \"" ++
              e.m_from.name ++ "\" -> \"" ++ e.m_to.name ++ "\"" ++ " " ++
              a.getAccessString) ∧
      (∀ (e : Edge) (g : TokenComponentAggregation),
        e.accessComponent = none → e.aggregationComponent = some g →
          e.getAsString =
            "[" ++ toString e.id ++ "] " ++ edgeTypeLabel e.m_type ++ ": \"" ++
              e.m_from.name ++ "\" -> \"" ++ e.m_to.name ++ "\"" ++ " " ++
              toString g.getAggregationCount) ∧
      (∀ (e : Edge) (a : TokenComponentAccess) (g : TokenComponentAggregation),
        e.accessComponent = some a → e.aggregationComponent = some g →
          e.getAsString =
            "[" ++ toString e.id ++ "] " ++ edgeTypeLabel e.m_type ++ ": \"" ++
              e.m_from.name ++ "\" -> \"" ++ e.m_to.name ++ "\"" ++ " " ++
              a.getAccessString ++ " " ++ toString g.getAggregationCount) ∧
      (∀ eid : Nat,
        ((Edge.construct eid EdgeType.EDGE_MEMBER
              { addr := 0, id := 1, m_type := NodeType.NODE_CLASS,
                name := "A", fullName := "A", incidentEdges := [] }
              { addr := 1, id := 2, m_type := NodeType.NODE_FIELD,
                name := "A::b", fullName := "A::b", incidentEdges := [] }).edge.addComponentAccess
            ⟨AccessType.ACCESS_PUBLIC⟩).1.getAsString =
          "[" ++ toString eid ++ "] child: \"A\" -> \"A::b\" public") := by
  refine ⟨?_, ?_, ?_, ?_, ?_⟩
  · intro e h1 h2
    simp [Edge.getAsString, Edge.getTypeString, getTypeStringOf_eq_label, h1, h2]
  · intro e a h1 h2
    simp [Edge.getAsString, Edge.getTypeString, getTypeStringOf_eq_label, h1, h2]
  · intro e g h1 h2
    simp [Edge.getAsString, Edge.getTypeString, getTypeStringOf_eq_label, h1, h2]
  · intro e a g h1 h2
    simp [Edge.getAsString, Edge.getTypeString, getTypeStringOf_eq_label, h1, h2,
      String.append_assoc]
  · intro eid
    simp [Edge.construct, Edge.addComponentAccess, Edge.getAsString, Edge.getTypeString,
      getTypeStringOf_eq_label, edgeTypeLabel, TokenComponentAccess.getAccessString,
      String.append_assoc]

/-- C7 witness: the theorem applied to a concrete Inheritance edge
carrying a protected Access component, to a concrete Aggregation edge
carrying a count of 7, and to the Member example at id 5, whose
rendering is the literal `[5] child: "A" -> "A::b" public`. -/
theorem edge_getAsString_spec_witness :
    (Edge.mk 3 EdgeType.EDGE_INHERITANCE
          { addr := 0, id := 1, m_type := NodeType.NODE_CLASS,
            name := "D", fullName := "D", incidentEdges := [3] }
          { addr := 1, id := 2, m_type := NodeType.NODE_CLASS,
            name := "B", fullName := "B", incidentEdges := [3] }
          (some ⟨AccessType.ACCESS_PROTECTED⟩) none).getAsString =
        "[3] inheritance: \"D\" -> \"B\" protected" ∧
      (Edge.mk 4 EdgeType.EDGE_AGGREGATION
          { addr := 0, id := 1, m_type := NodeType.NODE_CLASS,
            name := "D", fullName := "D", incidentEdges := [4] }
          { addr := 1, id := 2, m_type := NodeType.NODE_CLASS,
            name := "B", fullName := "B", incidentEdges := [4] }
          none (some ⟨7⟩)).getAsString = "[4] aggregation: \"D\" -> \"B\" 7" ∧
      ((Edge.construct 5 EdgeType.EDGE_MEMBER
            { addr := 0, id := 1, m_type := NodeType.NODE_CLASS,
              name := "A", fullName := "A", incidentEdges := [] }
            { addr := 1, id := 2, m_type := NodeType.NODE_FIELD,
              name := "A::b", fullName := "A::b", incidentEdges := [] }).edge.addComponentAccess
          ⟨AccessType.ACCESS_PUBLIC⟩).1.getAsString = "[5] child: \"A\" -> \"A::b\" public" := by
  refine ⟨?_, ?_, ?_⟩
  · exact (edge_getAsString_spec.2.1 _ ⟨AccessType.ACCESS_PROTECTED⟩ rfl rfl).trans (by decide)
  · exact (edge_getAsString_spec.2.2.1 _ ⟨7⟩ rfl rfl).trans (by decide)
  · exact (edge_getAsString_spec.2.2.2.2 5).trans (by decide)

end Sourcetrail
